import Mathlib

/-!
# MIDI_to_DMX: the scene tables of `midi_to_dmx/scenes.h`

A shallow embedding of the two constant tables of `scenes.h`
(`scene_slot_to_channel_mapping` and `scenes`) together with the lookup and
frame-resolution operations the specification describes, and the properties
of the authored data that are checked against them.

The header uses the preprocessor defines `BRIGHTNESS_FULL` and `COLOR_*`
without defining them (they live in another header).  Their shape is
documented in `scenes.h` lines 46-51: a brightness define is one value, a
colour define is a comma separated list of three values in R, G, B order.
Their values are a parameter (`Defines`) of everything below.
-/

namespace MidiToDmx

/-! ## Constants and the slot table -/

/-- `#define MAX_SCENE_COUNT 19` (scenes.h line 29). -/
def MAX_SCENE_COUNT : Nat := 19

/-- `#define MAX_UNIQUE_CHANNELS 16` (scenes.h line 33). -/
def MAX_UNIQUE_CHANNELS : Nat := 16

/-- `#define WASH_LIGHTS 0` (scenes.h line 111). -/
def WASH_LIGHTS : Nat := 0

/-- `const PROGMEM byte scene_slot_to_channel_mapping[MAX_UNIQUE_CHANNELS]`
(scenes.h lines 102-107): position in a scene row to DMX channel. -/
def scene_slot_to_channel_mapping : List Nat :=
  [ 1, 2, 3, 4,      -- Light 1 - GlobalBrightness,R,G,B
    10, 11, 12, 13,  -- Light 2 - GlobalBrightness,R,G,B
    20, 21, 22, 23,  -- Light 3 - GlobalBrightness,R,G,B
    30, 31, 32, 33 ] -- Light 4 - GlobalBrightness,R,G,B

/-! ## The preprocessor defines used by the scene rows -/

/-- Expansion of a colour define: three values in R, G, B order
(scenes.h lines 46-48 and 58). -/
structure RGB where
  r : Nat
  g : Nat
  b : Nat
  deriving DecidableEq, Repr

/-- Names of the colour defines that occur in the `scenes` initializer. -/
inductive Color where
  | ORANGE | BLUE | GREEN | RED | WHITE | MAGENTA | CYAN | YELLOW | PURPLE
  deriving DecidableEq, Repr

/-- Values of the defines the `scenes` initializer refers to.  They are not
defined in `scenes.h`; every definition below takes them as a parameter. -/
structure Defines where
  BRIGHTNESS_FULL : Nat
  COLOR_ORANGE : RGB
  COLOR_BLUE : RGB
  COLOR_GREEN : RGB
  COLOR_RED : RGB
  COLOR_WHITE : RGB
  COLOR_MAGENTA : RGB
  COLOR_CYAN : RGB
  COLOR_YELLOW : RGB
  COLOR_PURPLE : RGB

/-- Expansion of `COLOR_<name>`. -/
def Defines.color (d : Defines) : Color → RGB
  | .ORANGE => d.COLOR_ORANGE
  | .BLUE => d.COLOR_BLUE
  | .GREEN => d.COLOR_GREEN
  | .RED => d.COLOR_RED
  | .WHITE => d.COLOR_WHITE
  | .MAGENTA => d.COLOR_MAGENTA
  | .CYAN => d.COLOR_CYAN
  | .YELLOW => d.COLOR_YELLOW
  | .PURPLE => d.COLOR_PURPLE

/-- A sample assignment of the defines.  `BRIGHTNESS_FULL = 255`,
`COLOR_ORANGE = 255, 128, 0` and `COLOR_BLUE = 0, 0, 255` are the values of the
worked example in scenes.h lines 66-93, `COLOR_MAGENTA = 255, 0, 255` is
line 48; the remaining colours carry their usual RGB values. -/
def sampleDefines : Defines where
  BRIGHTNESS_FULL := 255
  COLOR_ORANGE := ⟨255, 128, 0⟩
  COLOR_BLUE := ⟨0, 0, 255⟩
  COLOR_GREEN := ⟨0, 255, 0⟩
  COLOR_RED := ⟨255, 0, 0⟩
  COLOR_WHITE := ⟨255, 255, 255⟩
  COLOR_MAGENTA := ⟨255, 0, 255⟩
  COLOR_CYAN := ⟨0, 255, 255⟩
  COLOR_YELLOW := ⟨255, 255, 0⟩
  COLOR_PURPLE := ⟨128, 0, 255⟩

/-! ## The `scenes` initializer as written -/

/-- One comma separated item of a row initializer, before preprocessing. -/
inductive Item where
  | lit (n : Nat)
  | BRIGHTNESS_FULL
  | COLOR (c : Color)
  deriving DecidableEq, Repr

/-- Preprocessing of one item: a literal stays, a brightness define gives one
value, a colour define gives its three values. -/
def Item.expand (d : Defines) : Item → List Nat
  | .lit n => [n]
  | .BRIGHTNESS_FULL => [d.BRIGHTNESS_FULL]
  | .COLOR c => [(d.color c).r, (d.color c).g, (d.color c).b]

open Item Color in
/-- The initializer of `scenes` (scenes.h lines 138-256): each entry is a
designator `[s] =` with the items of its brace list, in source order. -/
def scenes_source : List (Nat × List Item) :=
  [ (0,  [ BRIGHTNESS_FULL, lit 0, lit 0, lit 0,
           BRIGHTNESS_FULL, lit 0, lit 0, lit 0,
           BRIGHTNESS_FULL, lit 0, lit 0, lit 0,
           BRIGHTNESS_FULL, lit 0, lit 0, lit 0 ]),
    (1,  [ BRIGHTNESS_FULL, COLOR ORANGE,
           BRIGHTNESS_FULL, COLOR BLUE,
           BRIGHTNESS_FULL, COLOR ORANGE,
           BRIGHTNESS_FULL, COLOR BLUE ]),
    (2,  [ BRIGHTNESS_FULL, COLOR BLUE,
           BRIGHTNESS_FULL, COLOR ORANGE,
           BRIGHTNESS_FULL, COLOR BLUE,
           BRIGHTNESS_FULL, COLOR ORANGE ]),
    (3,  [ BRIGHTNESS_FULL, COLOR BLUE,
           BRIGHTNESS_FULL, COLOR GREEN,
           BRIGHTNESS_FULL, COLOR BLUE,
           BRIGHTNESS_FULL, COLOR GREEN ]),
    (4,  [ BRIGHTNESS_FULL, COLOR RED,
           BRIGHTNESS_FULL, COLOR BLUE,
           BRIGHTNESS_FULL, COLOR RED,
           BRIGHTNESS_FULL, COLOR BLUE ]),
    (5,  [ BRIGHTNESS_FULL, COLOR WHITE,
           BRIGHTNESS_FULL, COLOR GREEN,
           BRIGHTNESS_FULL, COLOR WHITE,
           BRIGHTNESS_FULL, COLOR GREEN ]),
    (6,  [ BRIGHTNESS_FULL, COLOR MAGENTA,
           BRIGHTNESS_FULL, COLOR CYAN,
           BRIGHTNESS_FULL, COLOR MAGENTA,
           BRIGHTNESS_FULL, COLOR CYAN ]),
    (7,  [ BRIGHTNESS_FULL, COLOR YELLOW,
           BRIGHTNESS_FULL, COLOR GREEN,
           BRIGHTNESS_FULL, COLOR YELLOW,
           BRIGHTNESS_FULL, COLOR GREEN ]),
    (8,  [ BRIGHTNESS_FULL, COLOR CYAN,
           BRIGHTNESS_FULL, COLOR RED,
           BRIGHTNESS_FULL, COLOR CYAN,
           BRIGHTNESS_FULL, COLOR RED ]),
    (9,  [ BRIGHTNESS_FULL, COLOR GREEN,
           BRIGHTNESS_FULL, COLOR BLUE,
           BRIGHTNESS_FULL, COLOR GREEN,
           BRIGHTNESS_FULL, COLOR BLUE ]),
    (10, [ BRIGHTNESS_FULL, COLOR GREEN,
           BRIGHTNESS_FULL, COLOR RED,
           BRIGHTNESS_FULL, COLOR GREEN,
           BRIGHTNESS_FULL, COLOR RED ]),
    (11, [ BRIGHTNESS_FULL, COLOR RED,
           BRIGHTNESS_FULL, COLOR PURPLE,
           BRIGHTNESS_FULL, COLOR RED,
           BRIGHTNESS_FULL, COLOR PURPLE ]),
    (12, [ BRIGHTNESS_FULL, COLOR PURPLE,
           BRIGHTNESS_FULL, COLOR RED,
           BRIGHTNESS_FULL, COLOR PURPLE,
           BRIGHTNESS_FULL, COLOR RED ]),
    (13, [ BRIGHTNESS_FULL, COLOR WHITE,
           BRIGHTNESS_FULL, COLOR RED,
           BRIGHTNESS_FULL, COLOR WHITE,
           BRIGHTNESS_FULL, COLOR RED ]),
    (14, [ BRIGHTNESS_FULL, COLOR GREEN,
           BRIGHTNESS_FULL, COLOR PURPLE,
           BRIGHTNESS_FULL, COLOR GREEN,
           BRIGHTNESS_FULL, COLOR PURPLE ]),
    (15, [ BRIGHTNESS_FULL, COLOR BLUE,
           BRIGHTNESS_FULL, COLOR BLUE,
           BRIGHTNESS_FULL, COLOR BLUE,
           BRIGHTNESS_FULL, COLOR BLUE ]),
    (16, [ BRIGHTNESS_FULL, COLOR RED,
           BRIGHTNESS_FULL, COLOR RED,
           BRIGHTNESS_FULL, COLOR RED,
           BRIGHTNESS_FULL, COLOR RED ]),
    (17, [ BRIGHTNESS_FULL, COLOR GREEN,
           BRIGHTNESS_FULL, COLOR GREEN,
           BRIGHTNESS_FULL, COLOR GREEN,
           BRIGHTNESS_FULL, COLOR GREEN ]),
    (18, [ BRIGHTNESS_FULL, COLOR WHITE,
           BRIGHTNESS_FULL, COLOR WHITE,
           BRIGHTNESS_FULL, COLOR WHITE,
           BRIGHTNESS_FULL, COLOR WHITE ]) ]

open Color in
/-- The colour combinations listed in the comment of scenes.h lines 114-134:
scene number, first colour, second colour. -/
def colour_combos : List (Nat × Color × Color) :=
  [ (1, ORANGE, BLUE), (2, BLUE, ORANGE), (3, BLUE, GREEN), (4, RED, BLUE),
    (5, WHITE, GREEN), (6, MAGENTA, CYAN), (7, YELLOW, GREEN), (8, CYAN, RED),
    (9, GREEN, BLUE), (10, GREEN, RED), (11, RED, PURPLE), (12, PURPLE, RED),
    (13, WHITE, RED), (14, GREEN, PURPLE), (15, BLUE, BLUE), (16, RED, RED),
    (17, GREEN, GREEN), (18, WHITE, WHITE) ]

/-! ## From the initializer to the array -/

/-- Conversion of an initializer value to the element type `byte`. -/
def toByte (n : Nat) : Nat := n % 256

/-- The values a row initializer lists once the defines are expanded. -/
def rowValues (d : Defines) (items : List Item) : List Nat :=
  (items.map (Item.expand d)).flatten

/-- The designators of the initializer, in source order. -/
def designators (src : List (Nat × List Item)) : List Nat :=
  src.map Prod.fst

/-- The brace list designated for row `s`: the last `[s] =` entry, if any. -/
def designated (src : List (Nat × List Item)) (s : Nat) : Option (List Item) :=
  (src.reverse.find? (fun e => e.1 == s)).map Prod.snd

/-- Aggregate initialization of one row of `MAX_UNIQUE_CHANNELS` bytes: the
listed values converted to `byte`, the elements left over set to zero. -/
def initRow (vals : List Nat) : List Nat :=
  vals.map toByte ++ List.replicate (MAX_UNIQUE_CHANNELS - vals.length) 0

/-- `const PROGMEM byte scenes[MAX_SCENE_COUNT][MAX_UNIQUE_CHANNELS]`
(scenes.h line 138): row `s` is initialized from the brace list designated
for `s`, a row without designator is zero. -/
def scenes (d : Defines) : List (List Nat) :=
  (List.range MAX_SCENE_COUNT).map fun s =>
    match designated scenes_source s with
    | some items => initRow (rowValues d items)
    | none => List.replicate MAX_UNIQUE_CHANNELS 0

/-- The array element `scenes[s][i]`, `none` outside the array. -/
def scenes_at (d : Defines) (s i : Nat) : Option Nat :=
  match (scenes d)[s]? with
  | some row => row[i]?
  | none => none

/-- The array element `scene_slot_to_channel_mapping[i]`, `none` outside. -/
def channel_at (i : Nat) : Option Nat :=
  scene_slot_to_channel_mapping[i]?

/-! ## Lookup and frame resolution

`scenes.h` holds the tables only; the lookup and the resolver that read them
are described in the specification (sections 3, 4 and 6). -/

/-- Modelled from the spec: the error conditions of sections 4 and 7 (the
lookup functions are not in `scenes.h`): an invalid scene index, and a slot
outside the tables. -/
inductive SceneError where
  | invalidScene
  | slotOutOfRange
  deriving DecidableEq, Repr

/-- Modelled from the spec: the Frame of section 3 (not in `scenes.h`), a
mapping from channel to value kept as a list of (channel, value) entries. -/
abbrev Frame := List (Nat × Nat)

/-- Modelled from the spec: writing `v` at key `ch` of a frame (section 4.3,
not in `scenes.h`); an entry already present for `ch` is replaced, so the
later write wins. -/
def frameWrite (fr : Frame) (ch v : Nat) : Frame :=
  if fr.any (fun e => e.1 == ch) then
    fr.map (fun e => if e.1 == ch then (ch, v) else e)
  else
    fr ++ [(ch, v)]

/-- Modelled from the spec: the value a frame holds at channel `ch`
(section 3, not in `scenes.h`). -/
def frameRead (fr : Frame) (ch : Nat) : Option Nat :=
  (fr.find? (fun e => e.1 == ch)).map Prod.snd

/-- Modelled from the spec: `channel_for_slot(slot)` of section 4.1 (not in
`scenes.h`), valid for `0 <= slot < K`, an out-of-range condition otherwise. -/
def channel_for_slot (slot : Nat) : Except SceneError Nat :=
  match channel_at slot with
  | some ch => .ok ch
  | none => .error .slotOutOfRange

/-- Modelled from the spec: `row_for_scene(scene_index)` of section 4.2 (not
in `scenes.h`), valid for `0 <= scene_index < N`; an index outside `[0, N)`
signals the invalid-scene condition. -/
def row_for_scene (d : Defines) (scene_index : Int) : Except SceneError (List Nat) :=
  if 0 ≤ scene_index ∧ scene_index < (MAX_SCENE_COUNT : Int) then
    match (scenes d)[scene_index.toNat]? with
    | some row => .ok row
    | none => .error .invalidScene
  else
    .error .invalidScene

/-- Modelled from the spec: the pass of the Frame Resolver of section 4.3 (not
in `scenes.h`) over the given slot positions: read the row value at the slot,
read the channel of the slot, write the value at that channel. -/
def resolveSlots (row : List Nat) : List Nat → Frame → Except SceneError Frame
  | [], fr => .ok fr
  | slot :: rest, fr =>
    match row[slot]?, channel_for_slot slot with
    | some v, .ok ch => resolveSlots row rest (frameWrite fr ch v)
    | _, _ => .error .slotOutOfRange

/-- Modelled from the spec: the Frame Resolver of section 4.3 on a supplied
scene row (not in `scenes.h`): slot positions `0..K-1` in order, starting from
the empty frame. -/
def resolveRow (row : List Nat) : Except SceneError Frame :=
  resolveSlots row (List.range MAX_UNIQUE_CHANNELS) []

/-- Modelled from the spec: `resolve(scene_index) -> Frame | InvalidSceneError`
of section 6 (not in `scenes.h`): the row lookup followed by the resolver, the
invalid-scene condition propagated unchanged. -/
def resolve (d : Defines) (scene_index : Int) : Except SceneError Frame :=
  match row_for_scene d scene_index with
  | .ok row => resolveRow row
  | .error e => .error e

/-! ## Reading a colour out of a row -/

/-- The three array elements `scenes[s][i]`, `scenes[s][i+1]`, `scenes[s][i+2]`
read as one R, G, B triple; `none` when one of them is outside the array. -/
def rgb_at (d : Defines) (s i : Nat) : Option RGB :=
  match scenes_at d s i, scenes_at d s (i + 1), scenes_at d s (i + 2) with
  | some r, some g, some b => some ⟨r, g, b⟩
  | _, _, _ => none

/-- The three values of a colour converted to the element type `byte`. -/
def RGB.toBytes (c : RGB) : RGB :=
  ⟨toByte c.r, toByte c.g, toByte c.b⟩

/-- The three values of a colour are byte values (0..255), as the header
documents them (`#define COLOR_MAGENTA 255, 0, 255`). -/
abbrev RGB.inByteRange (c : RGB) : Prop :=
  c.r < 256 ∧ c.g < 256 ∧ c.b < 256

/-! ## Auxiliary lemmas -/

theorem toByte_lt (n : Nat) : toByte n < 256 :=
  Nat.mod_lt n (by decide)

theorem toByte_of_lt {n : Nat} (h : n < 256) : toByte n = n :=
  Nat.mod_eq_of_lt h

theorem toByte_eq_zero_iff {n : Nat} (h : n < 256) : toByte n = 0 ↔ n = 0 := by
  rw [toByte_of_lt h]

theorem RGB.toBytes_of_inByteRange {c : RGB} (h : c.inByteRange) : c.toBytes = c := by
  obtain ⟨hr, hg, hb⟩ := h
  simp only [RGB.toBytes, toByte_of_lt hr, toByte_of_lt hg, toByte_of_lt hb]

/-- A list of sixteen elements, spelled out. -/
theorem list_of_length_16 : ∀ (row : List Nat), row.length = 16 →
    ∃ a0 a1 a2 a3 a4 a5 a6 a7 a8 a9 a10 a11 a12 a13 a14 a15,
      row = [a0, a1, a2, a3, a4, a5, a6, a7, a8, a9, a10, a11, a12, a13, a14, a15]
  | [a0, a1, a2, a3, a4, a5, a6, a7, a8, a9, a10, a11, a12, a13, a14, a15], _ =>
    ⟨a0, a1, a2, a3, a4, a5, a6, a7, a8, a9, a10, a11, a12, a13, a14, a15, rfl⟩

/-- On a row of `MAX_UNIQUE_CHANNELS` values the resolver succeeds and pairs
the slot table with the row, position by position. -/
theorem resolveRow_eq_zip (row : List Nat) (h : row.length = MAX_UNIQUE_CHANNELS) :
    resolveRow row = .ok (scene_slot_to_channel_mapping.zip row) := by
  obtain ⟨a0, a1, a2, a3, a4, a5, a6, a7, a8, a9, a10, a11, a12, a13, a14, a15, rfl⟩ :=
    list_of_length_16 row h
  simp [resolveRow, MAX_UNIQUE_CHANNELS, List.range, List.range.loop, resolveSlots,
    channel_for_slot, channel_at, scene_slot_to_channel_mapping, frameWrite]

/-- Every row of the array comes from a designated brace list that lists
exactly `MAX_UNIQUE_CHANNELS` values. -/
theorem scenes_row (d : Defines) (s : Nat) (hs : s < MAX_SCENE_COUNT) :
    ∃ items, designated scenes_source s = some items ∧
      (scenes d)[s]? = some (initRow (rowValues d items)) ∧
      (rowValues d items).length = MAX_UNIQUE_CHANNELS := by
  unfold MAX_SCENE_COUNT at hs
  interval_cases s <;> exact ⟨_, rfl, rfl, rfl⟩

theorem initRow_length (vals : List Nat) (h : vals.length = MAX_UNIQUE_CHANNELS) :
    (initRow vals).length = MAX_UNIQUE_CHANNELS := by
  simp [initRow, h]

theorem initRow_lt (vals : List Nat) : ∀ v ∈ initRow vals, v < 256 := by
  intro v hv
  simp only [initRow, List.mem_append, List.mem_map, List.mem_replicate] at hv
  rcases hv with ⟨a, _, rfl⟩ | ⟨_, rfl⟩
  · exact toByte_lt a
  · decide

/-- A frame holds a value at `ch` exactly when `ch` is one of its keys. -/
theorem frameRead_isSome_iff (fr : Frame) (ch : Nat) :
    (∃ v, frameRead fr ch = some v) ↔ ch ∈ fr.map Prod.fst := by
  induction fr with
  | nil => simp [frameRead]
  | cons e rest ih =>
    by_cases h : e.1 = ch
    · constructor
      · intro _
        simp [h]
      · intro _
        exact ⟨e.2, by simp [frameRead, List.find?, h]⟩
    · have hb : (e.1 == ch) = false := by simpa using h
      have hr : frameRead (e :: rest) ch = frameRead rest ch := by
        simp [frameRead, List.find?, hb]
      rw [hr, ih]
      simp only [List.map_cons, List.mem_cons]
      constructor
      · intro hm
        exact Or.inr hm
      · rintro (hm | hm)
        · exact absurd hm.symm h
        · exact hm

/-- For a valid index the lookup returns the array row and the resolver pairs
it with the slot table. -/
theorem resolve_valid (d : Defines) (s : Nat) (hs : s < MAX_SCENE_COUNT) :
    ∃ row, (scenes d)[s]? = some row ∧ row.length = MAX_UNIQUE_CHANNELS ∧
      (∀ v ∈ row, v < 256) ∧
      row_for_scene d (s : Int) = .ok row ∧
      resolve d (s : Int) = .ok (scene_slot_to_channel_mapping.zip row) := by
  obtain ⟨items, -, hrow, hlen⟩ := scenes_row d s hs
  have hc : (0 : Int) ≤ (s : Int) ∧ (s : Int) < (MAX_SCENE_COUNT : Int) :=
    ⟨Int.ofNat_nonneg s, by exact_mod_cast hs⟩
  have hl : row_for_scene d (s : Int) = .ok (initRow (rowValues d items)) := by
    simp only [row_for_scene, hc, and_self, if_true, Int.toNat_ofNat, hrow]
  refine ⟨_, hrow, initRow_length _ hlen, initRow_lt _, hl, ?_⟩
  simp only [resolve, hl]
  exact resolveRow_eq_zip _ (initRow_length _ hlen)

/-! ## The slot table and the shape of the scene table -/

/-- C1: the slot table assigns no channel to two different slots: any two
distinct slots below `MAX_UNIQUE_CHANNELS` hold distinct channels, and the
number of distinct channels in the table is `MAX_UNIQUE_CHANNELS` (16). -/
theorem slot_table_channels_distinct :
    (∀ i j, i < MAX_UNIQUE_CHANNELS → j < MAX_UNIQUE_CHANNELS → i ≠ j →
      ∃ a b, channel_at i = some a ∧ channel_at j = some b ∧ a ≠ b) ∧
    scene_slot_to_channel_mapping.toFinset.card = MAX_UNIQUE_CHANNELS ∧
    scene_slot_to_channel_mapping.length = MAX_UNIQUE_CHANNELS ∧
    MAX_UNIQUE_CHANNELS = 16 := by
  refine ⟨?_, by decide, by decide, rfl⟩
  intro i j hi hj hij
  unfold MAX_UNIQUE_CHANNELS at hi hj
  interval_cases i <;> interval_cases j <;>
    first
      | exact absurd rfl hij
      | exact ⟨_, _, rfl, rfl, by decide⟩

/-- Witness of C1 at slots 3 and 4 (channels 4 and 10). -/
theorem slot_table_channels_distinct_witness :
    ∃ a b, channel_at 3 = some a ∧ channel_at 4 = some b ∧ a ≠ b :=
  slot_table_channels_distinct.1 3 4 (by decide) (by decide) (by decide)

/-- C2: whatever the defines expand to (one value for a brightness define,
three for a colour define), every brace list of the `scenes` initializer lists
exactly `MAX_UNIQUE_CHANNELS` = 16 values, which is the length of the slot
table, and every scene index 0..18 has such a brace list. -/
theorem scene_rows_list_sixteen_values (d : Defines) :
    (∀ e ∈ scenes_source, (rowValues d e.2).length = MAX_UNIQUE_CHANNELS) ∧
    (∀ s, s < MAX_SCENE_COUNT → ∃ items, designated scenes_source s = some items ∧
      (rowValues d items).length = MAX_UNIQUE_CHANNELS) ∧
    scene_slot_to_channel_mapping.length = MAX_UNIQUE_CHANNELS ∧
    MAX_UNIQUE_CHANNELS = 16 := by
  refine ⟨?_, ?_, by decide, rfl⟩
  · intro e he
    simp only [scenes_source, List.mem_cons, List.mem_singleton, List.not_mem_nil,
      or_false] at he
    rcases he with h | h | h | h | h | h | h | h | h | h | h | h | h | h | h | h | h | h | h <;>
      subst h <;> rfl
  · intro s hs
    obtain ⟨items, hd, -, hlen⟩ := scenes_row d s hs
    exact ⟨items, hd, hlen⟩

/-- Witness of C2 at scene 4, whose brace list ends in a trailing comma. -/
theorem scene_rows_list_sixteen_values_witness :
    ∃ items, designated scenes_source 4 = some items ∧
      (rowValues sampleDefines items).length = MAX_UNIQUE_CHANNELS :=
  (scene_rows_list_sixteen_values sampleDefines).2.1 4 (by decide)

/-- C4: the designators of the `scenes` initializer are exactly 0, 1, ..., 18
in order, each once and without gap, so the number of authored scenes is
`MAX_SCENE_COUNT` = 19, which is at most 128; the largest scene number is 18,
at most 127. -/
theorem scene_count_matches_designators :
    designators scenes_source = List.range MAX_SCENE_COUNT ∧
    (designators scenes_source).Nodup ∧
    scenes_source.length = MAX_SCENE_COUNT ∧
    MAX_SCENE_COUNT = 19 ∧
    MAX_SCENE_COUNT ≤ 128 ∧
    (designators scenes_source).getLast? = some 18 ∧
    (designators scenes_source).all (fun s => decide (s ≤ 127)) = true := by
  decide

/-! ## Scene 0 -/

/-- C3, refuted as stated: with `BRIGHTNESS_FULL = 255` the first value of
`scenes[0]` is 255, so the values of `scenes[0]` are not all 0, and the frame
resolved from scene 0 holds 255 at channel 1.  More generally the values of
`scenes[0]` are all 0 only for defines whose `BRIGHTNESS_FULL` is 0 as a
byte. -/
theorem scene_zero_not_all_zero :
    scenes_at sampleDefines 0 0 = some 255 ∧
    ¬ (∀ i, i < MAX_UNIQUE_CHANNELS → scenes_at sampleDefines 0 i = some 0) ∧
    (∃ fr, resolve sampleDefines 0 = .ok fr ∧ frameRead fr 1 = some 255) ∧
    (∀ d : Defines, (∀ i, i < MAX_UNIQUE_CHANNELS → scenes_at d 0 i = some 0) →
      toByte d.BRIGHTNESS_FULL = 0) := by
  refine ⟨rfl, ?_, ?_, ?_⟩
  rotate_left
  · obtain ⟨row, hrow, -, -, -, hres⟩ := resolve_valid sampleDefines 0 (by decide)
    have hr : row = [255, 0, 0, 0, 255, 0, 0, 0, 255, 0, 0, 0, 255, 0, 0, 0] :=
      Option.some.inj (hrow.symm.trans rfl)
    subst hr
    exact ⟨_, hres, rfl⟩
  · intro d hall
    have h0 : scenes_at d 0 0 = some (toByte d.BRIGHTNESS_FULL) := rfl
    rw [hall 0 (by decide)] at h0
    exact (Option.some.inj h0).symm
  · intro h
    exact absurd (h 0 (by decide)) (by decide)

/-- C3, amended: scene 0 switches the lights off through the colour values.
Every value of `scenes[0]` other than the four brightness values (slots 0, 4,
8, 12, which hold `BRIGHTNESS_FULL`) is 0, so the frame resolved from scene 0
has value 0 at every R, G, B channel of the slot table and `BRIGHTNESS_FULL`
(as a byte) at the brightness channels 1, 10, 20, 30. -/
theorem scene_zero_colours_off (d : Defines) :
    (∀ i, i < MAX_UNIQUE_CHANNELS → i % 4 ≠ 0 → scenes_at d 0 i = some 0) ∧
    ∃ fr, resolve d 0 = .ok fr ∧
      (∀ ch, ch ∈ [2, 3, 4, 11, 12, 13, 21, 22, 23, 31, 32, 33] →
        frameRead fr ch = some 0) ∧
      (∀ ch, ch ∈ [1, 10, 20, 30] → frameRead fr ch = some (toByte d.BRIGHTNESS_FULL)) := by
  constructor
  · intro i hi hmod
    unfold MAX_UNIQUE_CHANNELS at hi
    interval_cases i <;> first | rfl | exact absurd rfl hmod
  · obtain ⟨row, hrow, -, -, -, hres⟩ := resolve_valid d 0 (by decide)
    have hr : row = [toByte d.BRIGHTNESS_FULL, 0, 0, 0, toByte d.BRIGHTNESS_FULL, 0, 0, 0,
        toByte d.BRIGHTNESS_FULL, 0, 0, 0, toByte d.BRIGHTNESS_FULL, 0, 0, 0] :=
      Option.some.inj (hrow.symm.trans rfl)
    subst hr
    refine ⟨_, hres, ?_, ?_⟩
    · intro ch hch
      simp only [List.mem_cons, List.mem_singleton, List.not_mem_nil, or_false] at hch
      rcases hch with h | h | h | h | h | h | h | h | h | h | h | h <;> subst h <;> rfl
    · intro ch hch
      simp only [List.mem_cons, List.mem_singleton, List.not_mem_nil, or_false] at hch
      rcases hch with h | h | h | h <;> subst h <;> rfl

/-- Witness of the amended C3: the blue value of light 2 (slot 7) and the
frame values at channels 13 (blue of light 2) and 20 (brightness of light 3). -/
theorem scene_zero_colours_off_witness :
    scenes_at sampleDefines 0 7 = some 0 ∧
    ∃ fr, resolve sampleDefines 0 = .ok fr ∧ frameRead fr 13 = some 0 ∧
      frameRead fr 20 = some (toByte sampleDefines.BRIGHTNESS_FULL) := by
  obtain ⟨hrow, fr, hres, hcol, hbr⟩ := scene_zero_colours_off sampleDefines
  exact ⟨hrow 7 (by decide) (by decide), fr, hres, hcol 13 (by decide), hbr 20 (by decide)⟩

/-! ## Resolution and lookup -/

/-- C5: for every valid scene index `s` below 19 the resolver returns a frame
with exactly 16 entries whose keys are the channels of the slot table, in slot
order and without repetition; a channel has a value in the frame exactly when
it is one of 1,2,3,4,10,11,12,13,20,21,22,23,30,31,32,33; every key is below
512 and every value below 256; and the value at the channel of slot `i` is
`scenes[s][i]`. -/
theorem resolve_valid_scene (d : Defines) (s : Nat) (hs : s < MAX_SCENE_COUNT) :
    ∃ fr, resolve d (s : Int) = .ok fr ∧
      fr.length = MAX_UNIQUE_CHANNELS ∧
      fr.map Prod.fst = scene_slot_to_channel_mapping ∧
      (fr.map Prod.fst).Nodup ∧
      (∀ ch, (∃ v, frameRead fr ch = some v) ↔
        ch ∈ [1, 2, 3, 4, 10, 11, 12, 13, 20, 21, 22, 23, 30, 31, 32, 33]) ∧
      (∀ e ∈ fr, e.1 < 512 ∧ e.2 < 256) ∧
      (∀ i, i < MAX_UNIQUE_CHANNELS → ∃ ch v, channel_at i = some ch ∧
        scenes_at d s i = some v ∧ frameRead fr ch = some v) := by
  obtain ⟨row, hrow, hlen, hlt, -, hres⟩ := resolve_valid d s hs
  obtain ⟨a0, a1, a2, a3, a4, a5, a6, a7, a8, a9, a10, a11, a12, a13, a14, a15, rfl⟩ :=
    list_of_length_16 row hlen
  have hkeys : (scene_slot_to_channel_mapping.zip
      [a0, a1, a2, a3, a4, a5, a6, a7, a8, a9, a10, a11, a12, a13, a14, a15]).map Prod.fst
      = scene_slot_to_channel_mapping := rfl
  refine ⟨_, hres, rfl, hkeys, ?_, ?_, ?_, ?_⟩
  · rw [hkeys]
    decide
  · intro ch
    rw [frameRead_isSome_iff, hkeys]
    rfl
  · intro e he
    have hm := List.of_mem_zip he
    refine ⟨?_, hlt _ hm.2⟩
    have hall : ∀ c ∈ scene_slot_to_channel_mapping, c < 512 := by decide
    exact hall _ hm.1
  · intro i hi
    unfold MAX_UNIQUE_CHANNELS at hi
    have hat : ∀ k, scenes_at d s k =
        [a0, a1, a2, a3, a4, a5, a6, a7, a8, a9, a10, a11, a12, a13, a14, a15][k]? := by
      intro k
      simp only [scenes_at, hrow]
    interval_cases i <;> exact ⟨_, _, rfl, hat _, rfl⟩

/-- Witness of C5 at scene 18, the last valid index. -/
theorem resolve_valid_scene_witness :
    ∃ fr, resolve sampleDefines ((18 : Nat) : Int) = .ok fr ∧
      fr.length = MAX_UNIQUE_CHANNELS ∧
      fr.map Prod.fst = scene_slot_to_channel_mapping ∧
      (fr.map Prod.fst).Nodup ∧
      (∀ ch, (∃ v, frameRead fr ch = some v) ↔
        ch ∈ [1, 2, 3, 4, 10, 11, 12, 13, 20, 21, 22, 23, 30, 31, 32, 33]) ∧
      (∀ e ∈ fr, e.1 < 512 ∧ e.2 < 256) ∧
      (∀ i, i < MAX_UNIQUE_CHANNELS → ∃ ch v, channel_at i = some ch ∧
        scenes_at sampleDefines 18 i = some v ∧ frameRead fr ch = some v) :=
  resolve_valid_scene sampleDefines 18 (by decide)

/-- C6: the lookup returns a row, and the resolver a frame, if and only if
`0 <= scene_index < 19`; outside that range both yield the invalid-scene
error; a returned row is the row of the `scenes` array at that index and a
returned frame is resolved from that row. -/
theorem lookup_outside_range_is_invalid_scene (d : Defines) (scene_index : Int) :
    ((∃ row, row_for_scene d scene_index = .ok row) ↔
      (0 ≤ scene_index ∧ scene_index < 19)) ∧
    ((∃ fr, resolve d scene_index = .ok fr) ↔
      (0 ≤ scene_index ∧ scene_index < 19)) ∧
    (¬ (0 ≤ scene_index ∧ scene_index < 19) →
      row_for_scene d scene_index = .error .invalidScene ∧
      resolve d scene_index = .error .invalidScene) ∧
    (∀ row, row_for_scene d scene_index = .ok row →
      (scenes d)[scene_index.toNat]? = some row) ∧
    (∀ fr, resolve d scene_index = .ok fr →
      ∃ row, (scenes d)[scene_index.toNat]? = some row ∧ resolveRow row = .ok fr) := by
  by_cases h : 0 ≤ scene_index ∧ scene_index < 19
  · obtain ⟨n, rfl⟩ := Int.eq_ofNat_of_zero_le h.1
    have hn : n < MAX_SCENE_COUNT := by
      unfold MAX_SCENE_COUNT
      exact_mod_cast h.2
    obtain ⟨row, hrow, hlen, -, hl, hres⟩ := resolve_valid d n hn
    refine ⟨⟨fun _ => h, fun _ => ⟨row, hl⟩⟩, ⟨fun _ => h, fun _ => ⟨_, hres⟩⟩,
      fun hne => absurd h hne, ?_, ?_⟩
    · intro r hr
      rw [hl] at hr
      cases hr
      simpa using hrow
    · intro fr hfr
      rw [hres] at hfr
      cases hfr
      exact ⟨row, by simpa using hrow, resolveRow_eq_zip row hlen⟩
  · have hl : row_for_scene d scene_index = .error .invalidScene := by
      have h2 : ¬ (0 ≤ scene_index ∧ scene_index < (MAX_SCENE_COUNT : Int)) := by
        unfold MAX_SCENE_COUNT
        exact_mod_cast h
      simp only [row_for_scene, h2, if_false]
    have hr : resolve d scene_index = .error .invalidScene := by
      simp only [resolve, hl]
    refine ⟨⟨?_, fun h2 => absurd h2 h⟩, ⟨?_, fun h2 => absurd h2 h⟩, fun _ => ⟨hl, hr⟩, ?_, ?_⟩
    · rintro ⟨row, hrow⟩
      rw [hl] at hrow
      cases hrow
    · rintro ⟨fr, hfr⟩
      rw [hr] at hfr
      cases hfr
    · intro row hrow
      rw [hl] at hrow
      cases hrow
    · intro fr hfr
      rw [hr] at hfr
      cases hfr

/-- Witness of C6 at index 19, the first index past the table: the lookup and
the resolver both yield the invalid-scene error. -/
theorem lookup_outside_range_is_invalid_scene_witness :
    row_for_scene sampleDefines 19 = .error .invalidScene ∧
    resolve sampleDefines 19 = .error .invalidScene :=
  (lookup_outside_range_is_invalid_scene sampleDefines 19).2.2.1 (by decide)

/-! ## Colours and layout of the authored scenes -/

set_option maxHeartbeats 1600000 in
/-- C7: the authored scenes match the colour list of the header comment: for
every listed entry `s: A/B` (the list covers exactly the scenes 1..18) the
RGB triple of light 1 (slots 1..3) and of light 3 (slots 9..11) in
`scenes[s]` is `COLOR_A`, and the triple of light 2 (slots 5..7) and of light 4
(slots 13..15) is `COLOR_B`; the stored values are the values of the define
converted to `byte`, hence the define itself when its values are bytes. -/
theorem scenes_match_colour_combos (d : Defines) (s : Nat) (A B : Color)
    (h : (s, A, B) ∈ colour_combos) :
    (1 ≤ s ∧ s ≤ 18) ∧
    rgb_at d s 1 = some (d.color A).toBytes ∧
    rgb_at d s 9 = some (d.color A).toBytes ∧
    rgb_at d s 5 = some (d.color B).toBytes ∧
    rgb_at d s 13 = some (d.color B).toBytes ∧
    ((d.color A).inByteRange →
      rgb_at d s 1 = some (d.color A) ∧ rgb_at d s 9 = some (d.color A)) ∧
    ((d.color B).inByteRange →
      rgb_at d s 5 = some (d.color B) ∧ rgb_at d s 13 = some (d.color B)) ∧
    colour_combos.map Prod.fst = List.range' 1 18 := by
  have key : (1 ≤ s ∧ s ≤ 18) ∧
      rgb_at d s 1 = some (d.color A).toBytes ∧
      rgb_at d s 9 = some (d.color A).toBytes ∧
      rgb_at d s 5 = some (d.color B).toBytes ∧
      rgb_at d s 13 = some (d.color B).toBytes := by
    simp only [colour_combos, List.mem_cons, List.mem_singleton, List.not_mem_nil, or_false,
      Prod.mk.injEq] at h
    rcases h with h | h | h | h | h | h | h | h | h | h | h | h | h | h | h | h | h | h <;>
      obtain ⟨rfl, rfl, rfl⟩ := h <;>
      exact ⟨by decide, rfl, rfl, rfl, rfl⟩
  obtain ⟨hs, h1, h9, h5, h13⟩ := key
  refine ⟨hs, h1, h9, h5, h13, ?_, ?_, by decide⟩
  · intro hA
    rw [h1, h9, RGB.toBytes_of_inByteRange hA]
    exact ⟨rfl, rfl⟩
  · intro hB
    rw [h5, h13, RGB.toBytes_of_inByteRange hB]
    exact ⟨rfl, rfl⟩

/-- Witness of C7 at the entry `11: Red/Purple`. -/
theorem scenes_match_colour_combos_witness :
    rgb_at sampleDefines 11 1 = some ⟨255, 0, 0⟩ ∧
    rgb_at sampleDefines 11 9 = some ⟨255, 0, 0⟩ ∧
    rgb_at sampleDefines 11 5 = some ⟨128, 0, 255⟩ ∧
    rgb_at sampleDefines 11 13 = some ⟨128, 0, 255⟩ := by
  obtain ⟨-, -, -, -, -, hA, hB, -⟩ :=
    scenes_match_colour_combos sampleDefines 11 Color.RED Color.PURPLE (by decide)
  exact ⟨(hA (by decide)).1, (hA (by decide)).2, (hB (by decide)).1, (hB (by decide)).2⟩

set_option maxHeartbeats 1600000 in
/-- C8: columns and slots agree by position.  For every light `f` below 4 the
slots `4f .. 4f+3` of the slot table are the consecutive channels `base`,
`base+1`, `base+2`, `base+3` with `base` = 1, 10, 20, 30 (GlobalBrightness, R,
G, B); and in every scene `s` below 19 the value at slot `4f` is the
brightness `BRIGHTNESS_FULL` and the values at slots `4f+1 .. 4f+3` are the R,
G, B values, in that order, of one colour: a colour define, or the literal
`0,0,0` (values as stored, that is converted to `byte`). -/
theorem columns_follow_slot_order (d : Defines) (f : Nat) (hf : f < 4) :
    (∃ base, [1, 10, 20, 30][f]? = some base ∧
      channel_at (4 * f) = some base ∧
      channel_at (4 * f + 1) = some (base + 1) ∧
      channel_at (4 * f + 2) = some (base + 2) ∧
      channel_at (4 * f + 3) = some (base + 3)) ∧
    (∀ s, s < MAX_SCENE_COUNT →
      scenes_at d s (4 * f) = some (toByte d.BRIGHTNESS_FULL) ∧
      ∃ c : RGB, (c = ⟨0, 0, 0⟩ ∨ ∃ n : Color, c = d.color n) ∧
        rgb_at d s (4 * f + 1) = some c.toBytes) := by
  constructor
  · interval_cases f <;> exact ⟨_, rfl, rfl, rfl, rfl, rfl⟩
  · intro s hs
    unfold MAX_SCENE_COUNT at hs
    interval_cases s <;> interval_cases f <;>
      first
        | exact ⟨rfl, _, Or.inl rfl, rfl⟩
        | exact ⟨rfl, _, Or.inr ⟨_, rfl⟩, rfl⟩

/-- Witness of C8 at light 2 (slots 8..11, channels 20..23) and scene 7. -/
theorem columns_follow_slot_order_witness :
    scenes_at sampleDefines 7 (4 * 2) = some (toByte sampleDefines.BRIGHTNESS_FULL) ∧
    ∃ c : RGB, (c = ⟨0, 0, 0⟩ ∨ ∃ n : Color, c = sampleDefines.color n) ∧
      rgb_at sampleDefines 7 (4 * 2 + 1) = some c.toBytes :=
  (columns_follow_slot_order sampleDefines 2 (by decide)).2 7 (by decide)

/-- C9: in scene 0 every colour slot (`i mod 4 != 0`) is 0 whatever
`BRIGHTNESS_FULL` is, and the four brightness slots 0, 4, 8, 12 hold
`BRIGHTNESS_FULL` (converted to `byte`); so `scenes[0]` is all-zero exactly
when that byte is 0, which for a byte value of `BRIGHTNESS_FULL` means
`BRIGHTNESS_FULL = 0`. -/
theorem scene_zero_nonzero_only_at_brightness (d : Defines) :
    (∀ i, i < MAX_UNIQUE_CHANNELS → i % 4 ≠ 0 → scenes_at d 0 i = some 0) ∧
    (∀ i, i < MAX_UNIQUE_CHANNELS → i % 4 = 0 →
      scenes_at d 0 i = some (toByte d.BRIGHTNESS_FULL)) ∧
    ((∀ i, i < MAX_UNIQUE_CHANNELS → scenes_at d 0 i = some 0) ↔
      toByte d.BRIGHTNESS_FULL = 0) ∧
    (d.BRIGHTNESS_FULL < 256 →
      (∀ i, i < MAX_UNIQUE_CHANNELS → i % 4 = 0 →
        scenes_at d 0 i = some d.BRIGHTNESS_FULL) ∧
      ((∀ i, i < MAX_UNIQUE_CHANNELS → scenes_at d 0 i = some 0) ↔
        d.BRIGHTNESS_FULL = 0)) := by
  have hcol : ∀ i, i < MAX_UNIQUE_CHANNELS → i % 4 ≠ 0 → scenes_at d 0 i = some 0 := by
    intro i hi hmod
    unfold MAX_UNIQUE_CHANNELS at hi
    interval_cases i <;> first | rfl | exact absurd rfl hmod
  have hbr : ∀ i, i < MAX_UNIQUE_CHANNELS → i % 4 = 0 →
      scenes_at d 0 i = some (toByte d.BRIGHTNESS_FULL) := by
    intro i hi hmod
    unfold MAX_UNIQUE_CHANNELS at hi
    interval_cases i <;> first | rfl | exact absurd hmod (by decide)
  have hiff : (∀ i, i < MAX_UNIQUE_CHANNELS → scenes_at d 0 i = some 0) ↔
      toByte d.BRIGHTNESS_FULL = 0 := by
    constructor
    · intro hall
      have h0 := hall 0 (by decide)
      rw [hbr 0 (by decide) rfl] at h0
      exact Option.some.inj h0
    · intro hz i hi
      by_cases hmod : i % 4 = 0
      · rw [hbr i hi hmod, hz]
      · exact hcol i hi hmod
  refine ⟨hcol, hbr, hiff, ?_⟩
  intro hlt
  constructor
  · intro i hi hmod
    rw [hbr i hi hmod, toByte_of_lt hlt]
  · rw [hiff, toByte_eq_zero_iff hlt]

/-- Witness of C9 at `BRIGHTNESS_FULL = 255`, a byte value. -/
theorem scene_zero_nonzero_only_at_brightness_witness :
    (∀ i, i < MAX_UNIQUE_CHANNELS → i % 4 = 0 →
      scenes_at sampleDefines 0 i = some sampleDefines.BRIGHTNESS_FULL) ∧
    ((∀ i, i < MAX_UNIQUE_CHANNELS → scenes_at sampleDefines 0 i = some 0) ↔
      sampleDefines.BRIGHTNESS_FULL = 0) :=
  (scene_zero_nonzero_only_at_brightness sampleDefines).2.2.2 (by decide)

set_option maxHeartbeats 1600000 in
/-- C10: every authored scene drives lights 3 and 4 as lights 1 and 2, at full
brightness, whatever the defines expand to: for every scene `s` below 19 and
slot `i` below 8, `scenes[s][i]` and `scenes[s][i+8]` are the same stored
value, and the brightness slot `4f` of every light `f` below 4 holds
`BRIGHTNESS_FULL` (converted to `byte`, hence `BRIGHTNESS_FULL` itself when it
is a byte value). -/
theorem lights_three_four_repeat_one_two (d : Defines) (s : Nat) (hs : s < MAX_SCENE_COUNT) :
    (∀ i, i < 8 → ∃ v, scenes_at d s i = some v ∧ scenes_at d s (i + 8) = some v) ∧
    (∀ f, f < 4 → scenes_at d s (4 * f) = some (toByte d.BRIGHTNESS_FULL)) ∧
    (d.BRIGHTNESS_FULL < 256 →
      ∀ f, f < 4 → scenes_at d s (4 * f) = some d.BRIGHTNESS_FULL) := by
  unfold MAX_SCENE_COUNT at hs
  have hbr : ∀ f, f < 4 → scenes_at d s (4 * f) = some (toByte d.BRIGHTNESS_FULL) := by
    intro f hf
    interval_cases s <;> interval_cases f <;> rfl
  refine ⟨?_, hbr, ?_⟩
  · intro i hi
    interval_cases s <;> interval_cases i <;> exact ⟨_, rfl, rfl⟩
  · intro hlt f hf
    rw [hbr f hf, toByte_of_lt hlt]

/-- Witness of C10 at scene 12 with `BRIGHTNESS_FULL = 255`. -/
theorem lights_three_four_repeat_one_two_witness :
    (∀ i, i < 8 → ∃ v, scenes_at sampleDefines 12 i = some v ∧
      scenes_at sampleDefines 12 (i + 8) = some v) ∧
    (∀ f, f < 4 → scenes_at sampleDefines 12 (4 * f) = some 255) := by
  obtain ⟨hrep, -, hfull⟩ := lights_three_four_repeat_one_two sampleDefines 12 (by decide)
  exact ⟨hrep, hfull (by decide)⟩

end MidiToDmx
